import Mathlib

/-!
# NetPulse — Diagnostic Execution & Result Model, shallow embedding

Shallow embedding of the core of `src/app.py`:

* `run_ping`       — the latency probe (app.py lines 61–79).  The external
  process is modelled by its observable behaviour: the wall-clock seconds it
  needed (`elapsedSec`), its exit status (`exitCode`, captured by
  `subprocess.run` but — exactly as in the source — never consulted), and its
  standard output (`out`).  `subprocess.run(..., timeout=10)` raises
  `TimeoutExpired` when the process exceeds ten seconds; the `except` clause
  turns every exception (timeout, `ValueError` from `float`, `IndexError`
  from `line.split("/")[4]`) into `None`, which the embedding mirrors with
  `Option`.
* `run_speedtest`  — the throughput probe (app.py lines 82–101).  The
  `speedtest` facility is modelled by a `SpeedtestEnv` record giving the
  outcome of `get_best_server`, `download` and `upload` (each may raise, i.e.
  be an `Except.error`), the baseline ping, the `results.dict()` payload and
  the wall-clock seconds the whole measurement took.  The source wraps the
  calls in `try/except` and returns `{"error": str(e)}` on any failure,
  modelled as `Except.error`; note the source consults no clock and imposes
  no deadline, so `run_speedtest` ignores `elapsedSec`.
* `newtest`        — the orchestrator route (app.py lines 189–217), POST
  branch.  It unconditionally calls both probes, aborts without persisting
  when the speedtest dict carries an `"error"` key, and otherwise appends a
  `TestResult` row whose `detail_json` is `json.dumps(st["raw"], indent=2)`.
  The booleans `ranPing` / `ranSpeedtest` record that the probe calls were
  issued, and `ok` records which flash branch was taken (success vs danger).
* `dashboard`      — `ListByOwner` (app.py lines 176–186): rows of the owner,
  ordered by `timestamp` descending.
* `result`         — `GetById` (app.py lines 220–228): first row matching
  both the id and the current user's id, `none` otherwise.

The database is a `List TestResult`; SQLite's `INTEGER PRIMARY KEY`
assignment on insert is modelled by `nextId` (one more than the largest
existing id).  Python floats are modelled by `ℚ`; `float(s)` on the strings
this program feeds it (digits, dots, optional sign, surrounding blanks) is
modelled by `parseFloat`.  `json.dumps(·, indent=2)` is modelled by
`Json.dumps`, a deterministic recursive printer over a JSON value type; the
exact whitespace layout of the Python printer is abstracted, the claims only
compare the stored string with the same serialization of the probe payload.
-/

/-- Value of a decimal digit character. -/
def digToNat (c : Char) : ℕ := c.toNat - 48

/-- Natural number denoted by a list of decimal digit characters. -/
def natOfDigits (ds : List Char) : ℕ := ds.foldl (fun a c => 10 * a + digToNat c) 0

/-- Python `float` strips surrounding whitespace before parsing. -/
def trimBlanks (cs : List Char) : List Char :=
  ((cs.dropWhile Char.isWhitespace).reverse.dropWhile Char.isWhitespace).reverse

/-- The digits read by a successful Python `float(s)`: sign, integer part,
fractional part and number of fractional digits. -/
structure DecNum where
  neg : Bool
  intPart : ℕ
  fracPart : ℕ
  fracLen : ℕ
deriving DecidableEq, Repr

/-- The rational number denoted by the digits of a decimal literal. -/
def decNumVal (d : DecNum) : ℚ :=
  (if d.neg then -1 else 1) * ((d.intPart : ℚ) + (d.fracPart : ℚ) / (10 : ℚ) ^ d.fracLen)

/-- Syntactic part of Python `float(s)` on the inputs this program produces:
optional surrounding whitespace, optional sign, then digits with at most one
dot and at least one digit (`"23"`, `"2.2"`, `"23."`, `".5"`); anything else
— empty string, several dots, stray letters or inner blanks — raises
`ValueError` in Python, here `none`. -/
def parseFloatSyn (s : String) : Option DecNum :=
  let t := trimBlanks s.data
  let signed : Bool × List Char :=
    match t with
    | '+' :: r => (false, r)
    | '-' :: r => (true, r)
    | r => (false, r)
  let intPart := signed.2.takeWhile Char.isDigit
  let rest := signed.2.dropWhile Char.isDigit
  match rest with
  | [] => if intPart.isEmpty then none else some ⟨signed.1, natOfDigits intPart, 0, 0⟩
  | '.' :: frac =>
    if frac.all Char.isDigit && !(intPart.isEmpty && frac.isEmpty) then
      some ⟨signed.1, natOfDigits intPart, natOfDigits frac, frac.length⟩
    else none
  | _ => none

/-- Model of Python `float(s)`: the rational value of the parsed decimal
literal, `none` where Python raises `ValueError`. -/
def parseFloat (s : String) : Option ℚ :=
  (parseFloatSyn s).map decNumVal

/-- Split a character list at a separator, Python `str.split(sep)` style:
`splitOnChar '/' "a/b"` gives `["a", "b"]`, the empty list gives `[""]`. -/
def splitOnChar (sep : Char) : List Char → List (List Char)
  | [] => [[]]
  | c :: cs =>
    match splitOnChar sep cs, decide (c = sep) with
    | r, true => [] :: r
    | [], false => [[c]]
    | h :: t, false => (c :: h) :: t

/-- Python's `needle in hay` substring test. -/
def containsStr (needle : String) (hay : List Char) : Bool :=
  hay.tails.any (fun t => needle.data.isPrefixOf t)

/-- The lines of a process' standard output (Python `str.splitlines`;
`ping` output separates lines with `'\n'`). -/
def outLines (out : String) : List (List Char) := splitOnChar '\n' out.data

/-- The characters kept by the Windows branch of `run_ping`:
`"".join(ch for ch in line if ch.isdigit() or ch == ".")`. -/
def digitsDots (line : List Char) : List Char :=
  line.filter (fun ch => ch.isDigit || ch == '.')

/-- The `timeout=10` (seconds) passed to `subprocess.run` in `run_ping`. -/
def pingTimeoutSec : ℕ := 10

/-- Latency probe, app.py lines 61–79.  `elapsedSec`: how long the spawned
`ping` process ran (exceeding `timeout=10` raises `TimeoutExpired`, caught by
the bare `except` → `None`).  `exitCode`: the process' exit status — captured
in `proc` but never read by the source, hence unused here.  `out`:
`proc.stdout`.  Windows branch: first line containing `"Average"`, keep
digits and dots, `float` it.  Linux/macOS branch: first line containing
`"rtt"` or `"avg"`, take field 4 of `line.split("/")`, `float` it.  Any
parse failure (`ValueError`, `IndexError`) is caught → `None`; no pattern →
falls through to `None`.  The number parser is a parameter only so that the
same control flow can be read off at the syntactic level (`run_pingSyn`);
the probe itself is `run_ping` below, at `parse := parseFloat`. -/
def run_pingWith {α : Type} (parse : String → Option α)
    (elapsedSec : ℕ) (exitCode : ℤ) (out : String) : Option α :=
  if pingTimeoutSec < elapsedSec then none
  else if containsStr "Average" out.data then
    match (outLines out).find? (fun l => containsStr "Average" l) with
    | some line => parse (String.mk (digitsDots line))
    | none => none
  else if containsStr "avg" out.data || containsStr "rtt min/avg" out.data then
    match (outLines out).find? (fun l => containsStr "rtt" l || containsStr "avg" l) with
    | some line => ((splitOnChar '/' line).get? 4).bind (fun f => parse (String.mk f))
    | none => none
  else none

/-- The latency probe proper: `run_pingWith` at Python's `float`. -/
def run_ping (elapsedSec : ℕ) (exitCode : ℤ) (out : String) : Option ℚ :=
  run_pingWith parseFloat elapsedSec exitCode out

/-- The latency probe at the syntactic level of `float`: same control flow,
but returning the parsed digits instead of their rational value.  Everything
here is decidable by evaluation; `run_ping_eq_syn` transports concrete
computations to `run_ping`. -/
def run_pingSyn (elapsedSec : ℕ) (exitCode : ℤ) (out : String) : Option DecNum :=
  run_pingWith parseFloatSyn elapsedSec exitCode out

/-- `run_ping` is the valuation of the syntactic probe. -/
theorem run_ping_eq_syn (e : ℕ) (x : ℤ) (out : String) :
    run_ping e x out = (run_pingSyn e x out).map decNumVal := by
  unfold run_ping run_pingSyn run_pingWith
  split
  · rfl
  · split
    · split
      · rfl
      · rfl
    · split
      · split
        · rename_i line _
          cases (splitOnChar '/' line).get? 4 <;> rfl
        · rfl
      · rfl

/-- JSON values, the shape of `st.results.dict()`. -/
inductive Json where
  | null : Json
  | bool (b : Bool) : Json
  | num (q : ℚ) : Json
  | str (s : String) : Json
  | arr (xs : List Json) : Json
  | obj (fields : List (String × Json)) : Json

mutual

/-- Model of `json.dumps(·, indent=2)` (app.py line 208): a deterministic
recursive serialization of the payload.  The claims compare the stored
string only against this same serialization of the probe's payload, so the
Python printer's exact whitespace is abstracted. -/
def Json.dumps : Json → String
  | .null => "null"
  | .bool true => "true"
  | .bool false => "false"
  | .num q => toString q
  | .str s => "\"" ++ s ++ "\""
  | .arr xs => "[" ++ Json.dumpsArr xs ++ "]"
  | .obj fs => "\x7b" ++ Json.dumpsObj fs ++ "\x7d"

/-- Serialize the elements of a JSON array. -/
def Json.dumpsArr : List Json → String
  | [] => ""
  | [x] => Json.dumps x
  | x :: y :: xs => Json.dumps x ++ ", " ++ Json.dumpsArr (y :: xs)

/-- Serialize the fields of a JSON object. -/
def Json.dumpsObj : List (String × Json) → String
  | [] => ""
  | [(k, v)] => "\"" ++ k ++ "\": " ++ Json.dumps v
  | (k, v) :: f :: fs => "\"" ++ k ++ "\": " ++ Json.dumps v ++ ", " ++ Json.dumpsObj (f :: fs)

end

/-- Behaviour of the external `speedtest` facility during one
`run_speedtest` call: the outcome of `get_best_server` (the chosen host, or
the exception message), of `st.download()` and `st.upload(pre_allocate=False)`
(bits per second, or the exception message), the baseline `st.results.ping`,
the `st.results.dict()` payload, and the wall-clock seconds the whole
measurement took. -/
structure SpeedtestEnv where
  best : Except String String
  download : Except String ℚ
  upload : Except String ℚ
  pingMs : ℚ
  raw : Json
  elapsedSec : ℕ

/-- The success dictionary built by `run_speedtest` (app.py lines 93–98). -/
structure SpeedtestPayload where
  download : ℚ
  upload : ℚ
  ping : ℚ
  raw : Json

/-- Throughput probe, app.py lines 82–101.  Runs `get_best_server`, then
`download`, then `upload`; the first exception aborts the `try` block and the
handler returns `{"error": str(e)}`, modelled by `Except.error`.  On success
the four-field dictionary is returned.  The source consults no clock and
passes no timeout to the facility, so the result is independent of
`env.elapsedSec`. -/
def run_speedtest (env : SpeedtestEnv) : Except String SpeedtestPayload :=
  match env.best with
  | .error e => .error e
  | .ok _ =>
    match env.download with
    | .error e => .error e
    | .ok d =>
      match env.upload with
      | .error e => .error e
      | .ok u => .ok ⟨d, u, env.pingMs, env.raw⟩

/-- A row of the `test_results` table (app.py lines 43–53).  `timestamp` is
in abstract clock ticks; `ping_ms` is `NULL`able (`Option`). -/
structure TestResult where
  id : ℕ
  user_id : ℕ
  target_ip : String
  ping_ms : Option ℚ
  download_bps : ℚ
  upload_bps : ℚ
  timestamp : ℕ
  detail_json : String
deriving DecidableEq, Repr

/-- Id SQLite assigns to the next inserted row of `test_results`
(`INTEGER PRIMARY KEY`): one more than the largest id present. -/
def nextId (db : List TestResult) : ℕ :=
  db.foldr (fun r m => max r.id m) 0 + 1

/-- Observable outcome of one POST to `/newtest`: whether each probe was
invoked, whether the success flash (`ok = true`) or the danger flash
(`ok = false`) was shown before the redirect to the dashboard, and the
database rows afterwards. -/
structure NewtestOutcome where
  ranPing : Bool
  ranSpeedtest : Bool
  ok : Bool
  db : List TestResult
deriving Repr

/-- The `/newtest` POST handler, app.py lines 193–215.  It reads the form's
`ip`, unconditionally calls `run_ping(ip)` and `run_speedtest()` (no
validation of `ip` whatsoever), bails out with a danger flash and no insert
when the speedtest dictionary has an `"error"` key, and otherwise inserts a
row carrying the current user's id, the target, the (possibly `NULL`) ping,
both throughput numbers, the commit-time `timestamp` (`now`) and
`json.dumps(st["raw"], indent=2)`. -/
def newtest (owner : ℕ) (ip : String) (now : ℕ)
    (pingElapsed : ℕ) (pingExit : ℤ) (pingOut : String)
    (env : SpeedtestEnv) (db : List TestResult) : NewtestOutcome :=
  let ping_ms := run_ping pingElapsed pingExit pingOut
  match run_speedtest env with
  | .error _ => ⟨true, true, false, db⟩
  | .ok st =>
    ⟨true, true, true,
      db ++ [⟨nextId db, owner, ip, ping_ms, st.download, st.upload, now, Json.dumps st.raw⟩]⟩

/-- Dashboard ordering: row `a` before row `b` when `a` is at least as
recent (`ORDER BY timestamp DESC`). -/
def newerFirst (a b : TestResult) : Prop := b.timestamp ≤ a.timestamp

instance : DecidableRel newerFirst := fun a b => Nat.decLe _ _

instance : IsTotal TestResult newerFirst := ⟨fun a b => le_total b.timestamp a.timestamp⟩

instance : IsTrans TestResult newerFirst := ⟨fun _ _ _ h1 h2 => le_trans h2 h1⟩

/-- The `/dashboard` query, app.py lines 180–185: the current user's rows,
ordered by `timestamp` descending. -/
def dashboard (owner : ℕ) (db : List TestResult) : List TestResult :=
  List.insertionSort newerFirst (db.filter (fun r => r.user_id == owner))

/-- The `/result/<test_id>` lookup, app.py line 224:
`filter_by(id=test_id, user_id=current_user.id).first()`. -/
def result (owner : ℕ) (testId : ℕ) (db : List TestResult) : Option TestResult :=
  db.find? (fun r => r.id == testId && r.user_id == owner)

/-! ## Helper lemmas -/

/-- Every row already in the table has an id strictly below the next
assigned id. -/
theorem id_lt_nextId {db : List TestResult} {r : TestResult} (h : r ∈ db) :
    r.id < nextId db := by
  unfold nextId
  rw [Nat.lt_succ_iff]
  induction db with
  | nil => cases h
  | cons a l ih =>
    rcases List.mem_cons.mp h with rfl | h'
    · exact le_max_left _ _
    · exact le_trans (ih h') (le_max_right _ _)

/-- `find?` skips a prefix on which the predicate is everywhere false. -/
theorem find?_false_append {α : Type} (p : α → Bool) (l1 l2 : List α)
    (h : ∀ x ∈ l1, p x = false) : (l1 ++ l2).find? p = l2.find? p := by
  induction l1 with
  | nil => rfl
  | cons a l ih =>
    rw [List.cons_append, List.find?_cons_of_neg _ (by simp [h a (List.mem_cons_self a l)])]
    exact ih (fun x hx => h x (List.mem_cons_of_mem a hx))

/-- Concrete evaluation: the Windows-style summary line parses to 23. -/
theorem ping_avg23 : run_ping 0 0 "Average = 23ms" = some 23 := by
  rw [run_ping_eq_syn,
    show run_pingSyn 0 0 "Average = 23ms" = some ⟨false, 23, 0, 0⟩ by decide]
  norm_num [decNumVal]

/-- Concrete evaluation: the Linux `rtt` summary line parses to 2.2.  The
exit status is arbitrary: `run_ping` never inspects it, so the two sides are
definitionally independent of `x`. -/
theorem ping_rtt_avg (x : ℤ) :
    run_ping 0 x "rtt min/avg/max/mdev = 1.1/2.2/3.3/0.4 ms" = some (11 / 5) := by
  have h0 : run_ping 0 x "rtt min/avg/max/mdev = 1.1/2.2/3.3/0.4 ms" =
      run_ping 0 0 "rtt min/avg/max/mdev = 1.1/2.2/3.3/0.4 ms" := rfl
  rw [h0, run_ping_eq_syn,
    show run_pingSyn 0 0 "rtt min/avg/max/mdev = 1.1/2.2/3.3/0.4 ms" =
      some ⟨false, 2, 2, 1⟩ by decide]
  norm_num [decNumVal]

/-! ## Claims -/

/-- C1: for every owner and target, if the throughput probe fails
(`run_speedtest` returns an error dictionary), the `newtest` run fails (the
danger flash, not the success one), no `TestResult` is persisted, and a
subsequent `dashboard` listing for that owner shows exactly what it showed
before — no new record. -/
theorem C1_throughput_failure_nothing_persisted
    (owner : ℕ) (ip : String) (now pe : ℕ) (px : ℤ) (pout : String)
    (env : SpeedtestEnv) (db : List TestResult) (e : String)
    (hfail : run_speedtest env = Except.error e) :
    (newtest owner ip now pe px pout env db).ok = false ∧
    (newtest owner ip now pe px pout env db).db = db ∧
    dashboard owner (newtest owner ip now pe px pout env db).db = dashboard owner db := by
  simp [newtest, hfail]

/-- Witness for C1 at a concrete failing speedtest environment. -/
theorem C1_witness :
    run_speedtest ⟨Except.error "dns failure", Except.ok 100, Except.ok 50, 7, Json.null, 3⟩ =
      Except.error "dns failure" ∧
    ((newtest 1 "8.8.8.8" 5 0 0 "" ⟨Except.error "dns failure", Except.ok 100, Except.ok 50, 7,
        Json.null, 3⟩ []).ok = false ∧
     (newtest 1 "8.8.8.8" 5 0 0 "" ⟨Except.error "dns failure", Except.ok 100, Except.ok 50, 7,
        Json.null, 3⟩ []).db = [] ∧
     dashboard 1 (newtest 1 "8.8.8.8" 5 0 0 "" ⟨Except.error "dns failure", Except.ok 100,
        Except.ok 50, 7, Json.null, 3⟩ []).db = dashboard 1 []) :=
  ⟨rfl, C1_throughput_failure_nothing_persisted 1 "8.8.8.8" 5 0 0 "" _ [] "dns failure" rfl⟩

/-- C2: for every owner and target, if the latency probe fails (`None`) but
the throughput probe succeeds, the `newtest` run succeeds and the persisted
row's `ping_ms` column is `NULL` (`none`) — not zero nor any other
sentinel. -/
theorem C2_latency_failure_tolerated
    (owner : ℕ) (ip : String) (now pe : ℕ) (px : ℤ) (pout : String)
    (env : SpeedtestEnv) (db : List TestResult) (p : SpeedtestPayload)
    (hping : run_ping pe px pout = none)
    (hok : run_speedtest env = Except.ok p) :
    (newtest owner ip now pe px pout env db).ok = true ∧
    (newtest owner ip now pe px pout env db).db =
      db ++ [⟨nextId db, owner, ip, none, p.download, p.upload, now, Json.dumps p.raw⟩] := by
  simp [newtest, hok, hping]

/-- Witness for C2: empty ping output (no pattern → `None`) with a
successful speedtest. -/
theorem C2_witness :
    run_ping 0 0 "" = none ∧
    run_speedtest ⟨Except.ok "host", Except.ok 100, Except.ok 50, 7, Json.null, 3⟩ =
      Except.ok ⟨100, 50, 7, Json.null⟩ ∧
    ((newtest 1 "8.8.8.8" 5 0 0 "" ⟨Except.ok "host", Except.ok 100, Except.ok 50, 7,
        Json.null, 3⟩ []).ok = true ∧
     (newtest 1 "8.8.8.8" 5 0 0 "" ⟨Except.ok "host", Except.ok 100, Except.ok 50, 7,
        Json.null, 3⟩ []).db =
       [] ++ [⟨nextId [], 1, "8.8.8.8", none, 100, 50, 5, Json.dumps Json.null⟩]) :=
  ⟨by decide, rfl,
    C2_latency_failure_tolerated 1 "8.8.8.8" 5 0 0 "" _ [] ⟨100, 50, 7, Json.null⟩
      (by decide) rfl⟩

/-- C3, counterexample: with an empty target and a succeeding speedtest,
`newtest` still invokes both probes, takes the success branch and persists a
record — there is no `InvalidInput` fail-fast path anywhere in the route. -/
theorem C3_counterexample_empty_target_accepted :
    (newtest 1 "" 5 0 0 "" ⟨Except.ok "host", Except.ok 100, Except.ok 50, 7,
        Json.null, 3⟩ []).ranPing = true ∧
    (newtest 1 "" 5 0 0 "" ⟨Except.ok "host", Except.ok 100, Except.ok 50, 7,
        Json.null, 3⟩ []).ranSpeedtest = true ∧
    (newtest 1 "" 5 0 0 "" ⟨Except.ok "host", Except.ok 100, Except.ok 50, 7,
        Json.null, 3⟩ []).ok = true ∧
    (newtest 1 "" 5 0 0 "" ⟨Except.ok "host", Except.ok 100, Except.ok 50, 7,
        Json.null, 3⟩ []).db ≠ [] :=
  ⟨rfl, rfl, rfl, by decide⟩

/-- C3 as amended: `newtest` performs no validation of the target at all —
the form's `ip` (empty included) is passed straight through, both probes are
invoked on every POST, and when the throughput probe succeeds a record is
persisted whose `target_ip` is the empty string. -/
theorem C3_amended_no_target_validation
    (owner : ℕ) (now pe : ℕ) (px : ℤ) (pout : String)
    (env : SpeedtestEnv) (db : List TestResult) (p : SpeedtestPayload)
    (hok : run_speedtest env = Except.ok p) :
    (newtest owner "" now pe px pout env db).ranPing = true ∧
    (newtest owner "" now pe px pout env db).ranSpeedtest = true ∧
    (newtest owner "" now pe px pout env db).db =
      db ++ [⟨nextId db, owner, "", run_ping pe px pout, p.download, p.upload, now,
        Json.dumps p.raw⟩] := by
  simp [newtest, hok]

/-- Witness for the amended C3 at a concrete succeeding environment. -/
theorem C3_amended_witness :
    run_speedtest ⟨Except.ok "host", Except.ok 100, Except.ok 50, 7, Json.null, 3⟩ =
      Except.ok ⟨100, 50, 7, Json.null⟩ ∧
    ((newtest 2 "" 5 0 0 "" ⟨Except.ok "host", Except.ok 100, Except.ok 50, 7,
        Json.null, 3⟩ []).ranPing = true ∧
     (newtest 2 "" 5 0 0 "" ⟨Except.ok "host", Except.ok 100, Except.ok 50, 7,
        Json.null, 3⟩ []).ranSpeedtest = true ∧
     (newtest 2 "" 5 0 0 "" ⟨Except.ok "host", Except.ok 100, Except.ok 50, 7,
        Json.null, 3⟩ []).db =
       [] ++ [⟨nextId [], 2, "", run_ping 0 0 "", 100, 50, 5, Json.dumps Json.null⟩]) :=
  ⟨rfl, C3_amended_no_target_validation 2 5 0 0 "" _ [] ⟨100, 50, 7, Json.null⟩ rfl⟩

/-- C4: on a successful run the persisted row's `detail_json` is exactly the
serialization of the payload the throughput facility produced
(`json.dumps(st["raw"], indent=2)`), and a later `GetById` read returns that
row — hence that very string — unchanged. -/
theorem C4_raw_detail_stored_verbatim
    (owner : ℕ) (ip : String) (now pe : ℕ) (px : ℤ) (pout : String)
    (env : SpeedtestEnv) (db : List TestResult) (p : SpeedtestPayload)
    (hok : run_speedtest env = Except.ok p) :
    ∃ rec : TestResult,
      (newtest owner ip now pe px pout env db).db = db ++ [rec] ∧
      rec.detail_json = Json.dumps p.raw ∧
      result owner rec.id (newtest owner ip now pe px pout env db).db = some rec := by
  refine ⟨⟨nextId db, owner, ip, run_ping pe px pout, p.download, p.upload, now,
    Json.dumps p.raw⟩, by simp [newtest, hok], rfl, ?_⟩
  have hdb : (newtest owner ip now pe px pout env db).db =
      db ++ [⟨nextId db, owner, ip, run_ping pe px pout, p.download, p.upload, now,
        Json.dumps p.raw⟩] := by
    simp [newtest, hok]
  rw [hdb, result,
    find?_false_append _ db _ (fun x hx => by
      have hlt := id_lt_nextId hx
      simp only [Bool.and_eq_false_iff, beq_eq_false_iff_ne, ne_eq]
      exact Or.inl (Nat.ne_of_lt hlt)),
    List.find?_cons_of_pos _ (by simp)]

/-- Witness for C4 at a concrete payload. -/
theorem C4_witness :
    run_speedtest ⟨Except.ok "host", Except.ok 100, Except.ok 50, 7,
      Json.obj [("ping", Json.num 7)], 3⟩ =
      Except.ok ⟨100, 50, 7, Json.obj [("ping", Json.num 7)]⟩ ∧
    (∃ rec : TestResult,
      (newtest 1 "8.8.8.8" 5 0 0 "" ⟨Except.ok "host", Except.ok 100, Except.ok 50, 7,
        Json.obj [("ping", Json.num 7)], 3⟩ []).db = [] ++ [rec] ∧
      rec.detail_json = Json.dumps (Json.obj [("ping", Json.num 7)]) ∧
      result 1 rec.id (newtest 1 "8.8.8.8" 5 0 0 "" ⟨Except.ok "host", Except.ok 100,
        Except.ok 50, 7, Json.obj [("ping", Json.num 7)], 3⟩ []).db = some rec) :=
  ⟨rfl, C4_raw_detail_stored_verbatim 1 "8.8.8.8" 5 0 0 "" _ []
    ⟨100, 50, 7, Json.obj [("ping", Json.num 7)]⟩ rfl⟩

/-- C5: the latency parser extracts 23 from an `Average = 23ms` summary
line, 2.2 from the `rtt min/avg/max/mdev = 1.1/2.2/3.3/0.4 ms` line, and
fails (no value) on empty or unrecognized output. -/
theorem C5_parser_cases :
    run_ping 0 0 "Average = 23ms" = some 23 ∧
    run_ping 0 0 "rtt min/avg/max/mdev = 1.1/2.2/3.3/0.4 ms" = some (11 / 5) ∧
    run_ping 0 0 "" = none ∧
    run_ping 0 0 "request timed out" = none :=
  ⟨ping_avg23, ping_rtt_avg 0, by decide, by decide⟩

/-- C6, counterexample: the source never reads the process' exit status, so
a non-zero exit with parseable output still yields a latency value — the
claim's "exits with a non-zero status ⇒ ok=false" clause is false on the
code. -/
theorem C6_counterexample_exit_status_ignored :
    run_ping 0 1 "rtt min/avg/max/mdev = 1.1/2.2/3.3/0.4 ms" = some (11 / 5) ∧
    run_ping 0 1 "rtt min/avg/max/mdev = 1.1/2.2/3.3/0.4 ms" ≠ none ∧
    (1 : ℤ) ≠ 0 :=
  ⟨ping_rtt_avg 1, by simp [ping_rtt_avg 1], by decide⟩

/-- C6 as amended: if neither output pattern is found, `run_ping` returns
`none`; and whenever it does return a value, that value is the parse of text
extracted from the output (the digit/dot filtering of an `Average` line, or
field 4 of a slash-split `rtt`/`avg` line) — so a parse failure yields
`none` and no zero is ever fabricated.  The process' exit status, however,
is never consulted. -/
theorem C6_amended_failure_yields_none
    : (∀ (e : ℕ) (x : ℤ) (out : String),
        containsStr "Average" out.data = false →
        containsStr "avg" out.data = false →
        containsStr "rtt min/avg" out.data = false →
        run_ping e x out = none) ∧
      (∀ (e : ℕ) (x : ℤ) (out : String) (q : ℚ), run_ping e x out = some q →
        ∃ line ∈ outLines out,
          parseFloat (String.mk (digitsDots line)) = some q ∨
          ∃ f, (splitOnChar '/' line).get? 4 = some f ∧ parseFloat (String.mk f) = some q) := by
  constructor
  · intro e x out h1 h2 h3
    simp [run_ping, run_pingWith, h1, h2, h3]
  · intro e x out q h
    unfold run_ping run_pingWith at h
    by_cases ht : pingTimeoutSec < e
    · rw [if_pos ht] at h; exact absurd h (by simp)
    rw [if_neg ht] at h
    by_cases h1 : containsStr "Average" out.data = true
    · rw [if_pos h1] at h
      cases hf : (outLines out).find? (fun l => containsStr "Average" l) with
      | none => rw [hf] at h; exact absurd h (by simp)
      | some line =>
        rw [hf] at h
        exact ⟨line, List.mem_of_find?_eq_some hf, Or.inl h⟩
    rw [if_neg h1] at h
    by_cases h2 : (containsStr "avg" out.data || containsStr "rtt min/avg" out.data) = true
    · rw [if_pos h2] at h
      cases hf : (outLines out).find? (fun l => containsStr "rtt" l || containsStr "avg" l) with
      | none => rw [hf] at h; exact absurd h (by simp)
      | some line =>
        rw [hf] at h
        obtain ⟨f, hget, hp⟩ := Option.bind_eq_some.mp h
        exact ⟨line, List.mem_of_find?_eq_some hf, Or.inr ⟨f, hget, hp⟩⟩
    rw [if_neg h2] at h
    exact absurd h (by simp)

/-- Witness for the amended C6: unrecognized output gives `none`, and the
value 23 returned on an `Average` line is the parse of that line's digits. -/
theorem C6_amended_witness :
    run_ping 0 0 "nothing to see" = none ∧
    (∃ line ∈ outLines "Average = 23ms",
      parseFloat (String.mk (digitsDots line)) = some 23 ∨
      ∃ f, (splitOnChar '/' line).get? 4 = some f ∧ parseFloat (String.mk f) = some 23) :=
  ⟨C6_amended_failure_yields_none.1 0 0 "nothing to see" (by decide) (by decide) (by decide),
   C6_amended_failure_yields_none.2 0 0 "Average = 23ms" 23 ping_avg23⟩

/-- C7: the dashboard listing is a permutation of exactly the owner's rows
(all of them, nothing else), it is sorted most-recent-first by `timestamp`,
and an owner with no rows gets the empty list, not an error. -/
theorem C7_list_by_owner_complete_sorted (o : ℕ) (db : List TestResult) :
    (dashboard o db).Perm (db.filter (fun r => r.user_id == o)) ∧
    List.Sorted newerFirst (dashboard o db) ∧
    ((∀ r ∈ db, r.user_id ≠ o) → dashboard o db = []) := by
  refine ⟨List.perm_insertionSort _ _, List.sorted_insertionSort _ _, ?_⟩
  intro h
  have hf : db.filter (fun r => r.user_id == o) = [] := by
    rw [List.filter_eq_nil_iff]
    intro a ha
    simpa using h a ha
  unfold dashboard
  rw [hf]
  rfl

/-- Witness for C7: a two-row table owned by user 1, listed for its owner
and for owner 2 who has no rows. -/
theorem C7_witness :
    ((dashboard 1 [⟨1, 1, "a", none, 1, 2, 3, "x"⟩, ⟨2, 1, "b", none, 1, 2, 9, "y"⟩]).Perm
      (List.filter (fun r => r.user_id == 1)
        [⟨1, 1, "a", none, 1, 2, 3, "x"⟩, ⟨2, 1, "b", none, 1, 2, 9, "y"⟩]) ∧
     List.Sorted newerFirst
       (dashboard 1 [⟨1, 1, "a", none, 1, 2, 3, "x"⟩, ⟨2, 1, "b", none, 1, 2, 9, "y"⟩]) ∧
     ((∀ r ∈ [⟨1, 1, "a", none, 1, 2, 3, "x"⟩, ⟨2, 1, "b", none, 1, 2, 9, "y"⟩],
        TestResult.user_id r ≠ 1) →
       dashboard 1 [⟨1, 1, "a", none, 1, 2, 3, "x"⟩, ⟨2, 1, "b", none, 1, 2, 9, "y"⟩] = [])) ∧
    dashboard 2 [⟨1, 1, "a", none, 1, 2, 3, "x"⟩, ⟨2, 1, "b", none, 1, 2, 9, "y"⟩] = [] :=
  ⟨C7_list_by_owner_complete_sorted 1
      [⟨1, 1, "a", none, 1, 2, 3, "x"⟩, ⟨2, 1, "b", none, 1, 2, 9, "y"⟩],
   (C7_list_by_owner_complete_sorted 2
      [⟨1, 1, "a", none, 1, 2, 3, "x"⟩, ⟨2, 1, "b", none, 1, 2, 9, "y"⟩]).2.2 (by decide)⟩

/-- C8: owner scoping of reads — every row the dashboard returns for owner
`o` belongs to `o`, and a `GetById`-style lookup by `o` of an id whose rows
all belong to a different owner finds nothing. -/
theorem C8_owner_scoped_reads (o oOther rid : ℕ) (db : List TestResult)
    (hid : ∀ x ∈ db, x.id = rid → x.user_id = oOther)
    (hne : oOther ≠ o) :
    result o rid db = none ∧ ∀ r ∈ dashboard o db, r.user_id = o := by
  constructor
  · rw [result, List.find?_eq_none]
    intro x hx hpx
    simp only [Bool.and_eq_true, beq_iff_eq] at hpx
    exact hne ((hid x hx hpx.1).symm.trans hpx.2)
  · intro r hr
    unfold dashboard at hr
    have hmem := (List.perm_insertionSort newerFirst _).mem_iff.mp hr
    simpa using (List.mem_filter.mp hmem).2

/-- Witness for C8: the single row with id 1 belongs to owner 7, and owner
5's lookup of id 1 fails. -/
theorem C8_witness :
    result 5 1 [⟨1, 7, "h", none, 1, 2, 3, "x"⟩] = none ∧
    ∀ r ∈ dashboard 5 [⟨1, 7, "h", none, 1, 2, 3, "x"⟩], r.user_id = 5 :=
  C8_owner_scoped_reads 5 7 1 [⟨1, 7, "h", none, 1, 2, 3, "x"⟩] (by decide) (by decide)

/-- C9, counterexample: the claim that every probe call carries a deadline
fails for the throughput probe — a speedtest measurement that took a million
seconds (far beyond the program's only deadline, the 10 s given to `ping`)
is still an ordinary success, and `newtest`, which invokes it with no outer
bound, happily persists its record. -/
theorem C9_counterexample_throughput_unbounded :
    pingTimeoutSec < 1000000 ∧
    run_speedtest ⟨Except.ok "host", Except.ok 100, Except.ok 50, 7, Json.null, 1000000⟩ =
      Except.ok ⟨100, 50, 7, Json.null⟩ ∧
    (newtest 1 "8.8.8.8" 5 0 0 "" ⟨Except.ok "host", Except.ok 100, Except.ok 50, 7,
      Json.null, 1000000⟩ []).ok = true :=
  ⟨by decide, rfl, rfl⟩

/-- C9 as amended: only the latency probe carries a deadline — exceeding the
10 s `subprocess` timeout makes `run_ping` report failure (`none`) — while
`run_speedtest` carries none at all: its outcome is independent of how long
the measurement ran. -/
theorem C9_amended_only_latency_deadline :
    (∀ (e : ℕ) (x : ℤ) (out : String), pingTimeoutSec < e → run_ping e x out = none) ∧
    (∀ (b : Except String String) (d u : Except String ℚ) (pq : ℚ) (r : Json) (t1 t2 : ℕ),
      run_speedtest ⟨b, d, u, pq, r, t1⟩ = run_speedtest ⟨b, d, u, pq, r, t2⟩) := by
  constructor
  · intro e x out h
    simp [run_ping, run_pingWith, h]
  · intro b d u pq r t1 t2
    rfl

/-- Witness for the amended C9. -/
theorem C9_amended_witness :
    run_ping 11 0 "Average = 23ms" = none ∧
    run_speedtest ⟨Except.ok "h", Except.ok 1, Except.ok 2, 0, Json.null, 5⟩ =
      run_speedtest ⟨Except.ok "h", Except.ok 1, Except.ok 2, 0, Json.null, 99⟩ :=
  ⟨C9_amended_only_latency_deadline.1 11 0 "Average = 23ms" (by decide),
   C9_amended_only_latency_deadline.2 (Except.ok "h") (Except.ok 1) (Except.ok 2) 0
     Json.null 5 99⟩

/-- C10: on the Windows-style branch the parser returns the float formed by
concatenating every digit and dot of the first `Average` line; on the
realistic summary line `Minimum = 1ms, Maximum = 3ms, Average = 2ms` this
gives 132, not the mean 2. -/
theorem C10_windows_branch_digit_concat
    (e : ℕ) (x : ℤ) (out : String) (line : List Char)
    (he : e ≤ pingTimeoutSec)
    (havg : containsStr "Average" out.data = true)
    (hline : (outLines out).find? (fun l => containsStr "Average" l) = some line) :
    run_ping e x out = parseFloat (String.mk (digitsDots line)) ∧
    run_ping 0 0 "Minimum = 1ms, Maximum = 3ms, Average = 2ms" = some 132 ∧
    (some (132 : ℚ) : Option ℚ) ≠ some 2 := by
  refine ⟨?_, ?_, by norm_num⟩
  · unfold run_ping run_pingWith
    rw [if_neg (by omega), if_pos havg, hline]
  · rw [run_ping_eq_syn,
      show run_pingSyn 0 0 "Minimum = 1ms, Maximum = 3ms, Average = 2ms" =
        some ⟨false, 132, 0, 0⟩ by decide]
    norm_num [decNumVal]

/-- Witness for C10 at the realistic Windows summary line itself. -/
theorem C10_witness :
    (0 ≤ pingTimeoutSec ∧
      containsStr "Average" "Minimum = 1ms, Maximum = 3ms, Average = 2ms".data = true ∧
      (outLines "Minimum = 1ms, Maximum = 3ms, Average = 2ms").find?
        (fun l => containsStr "Average" l) =
        some "Minimum = 1ms, Maximum = 3ms, Average = 2ms".data) ∧
    (run_ping 0 0 "Minimum = 1ms, Maximum = 3ms, Average = 2ms" =
      parseFloat (String.mk (digitsDots "Minimum = 1ms, Maximum = 3ms, Average = 2ms".data)) ∧
     run_ping 0 0 "Minimum = 1ms, Maximum = 3ms, Average = 2ms" = some 132 ∧
     (some (132 : ℚ) : Option ℚ) ≠ some 2) :=
  ⟨⟨by decide, by decide, by decide⟩,
   C10_windows_branch_digit_concat 0 0 "Minimum = 1ms, Maximum = 3ms, Average = 2ms"
     "Minimum = 1ms, Maximum = 3ms, Average = 2ms".data (by decide) (by decide) (by decide)⟩
